import Mathlib

/-!
Shallow embedding of the LonyiChat backend (src/api/index.js).

The backend is an Express application whose handlers validate a request
body and issue reads/writes against a Firestore document database.  We
embed the store as an in-memory association list per collection and each
route handler as a pure function from a request plus a store to an updated
store plus an HTTP response.  Firestore primitives are embedded as:

* `doc(id).set(d)`            -> `setDoc` (insert or overwrite by key)
* `collection.add(d)`         -> `addDoc` (append under a freshly generated id)
* `doc(id).get` / lookups     -> `getDoc` (first binding of the key)
* `doc(id).update(..)`        -> fails when the document is absent
* `FieldValue.arrayUnion x`   -> `arrayUnion` (append `x` when not present)
* `FieldValue.increment 1`    -> `Nat` successor on the counter field
* `FieldValue.serverTimestamp`-> the store clock `now : Nat`, bumped on use

Handlers model the store-reachable execution path: `checkDbConnection`
succeeds and store writes do not fail, except where the code itself can
fail on present data (`update` on a missing document, a missing church in
the follow transaction), which is modelled explicitly.
-/

namespace LonyiChat

/-- Document identifiers are strings (Firestore document ids). -/
abbrev DocId := String

/-- Reaction counters of a post document, as initialised by POST /posts. -/
structure Reactions where
  amen : Nat
  hallelujah : Nat
  praiseGod : Nat
deriving Repr, DecidableEq

/-- Church document, written by POST /churches and the follow transaction. -/
structure Church where
  name : String
  description : String
  createdBy : String
  members : List String
  followerCount : Nat
  createdAt : Nat
deriving Repr, DecidableEq

/-- User profile document, written by POST /signup-profile. -/
structure UserDoc where
  name : String
  email : String
  phone : String
  age : Int
  country : String
  photoUrl : Option String
  createdAt : Nat
  following : List String
  followers : List String
  churches : List String
deriving Repr, DecidableEq

/-- Friend-request document, written by POST /users/friend-request.
The JS fields are named from/to; from is a Lean keyword so we use
fromId/toId. -/
structure FriendRequest where
  fromId : String
  toId : String
  status : String
  createdAt : Nat
deriving Repr, DecidableEq

/-- Post document as stored in the posts collection. -/
structure Post where
  authorId : String
  authorName : String
  authorPhotoUrl : Option String
  content : String
  postType : String
  reactions : Reactions
  commentCount : Nat
  createdAt : Nat
deriving Repr, DecidableEq

/-- Church event document, written by POST /churches/:churchId/events.
The code stores new Date(eventDate); we keep the raw string. -/
structure ChurchEvent where
  title : String
  details : String
  eventDate : String
  postedBy : String
  createdAt : Nat
deriving Repr, DecidableEq

/-- The Firestore state touched by the embedded handlers.  Each collection
is an association list keyed by document id; events is the
churches/{churchId}/events subcollection, keyed by owning church id and
event id.  nextId generates fresh document ids for collection.add and now
is the server-timestamp clock. -/
structure Store where
  users : List (DocId × UserDoc)
  churches : List (DocId × Church)
  posts : List (DocId × Post)
  friendRequests : List (DocId × FriendRequest)
  events : List (DocId × DocId × ChurchEvent)
  nextId : Nat
  now : Nat
deriving Repr, DecidableEq

/-- Firestore document read: the first binding of the id in the collection. -/
def getDoc {α : Type} (coll : List (DocId × α)) (id : DocId) : Option α :=
  (coll.find? (fun p => p.1 == id)).map Prod.snd

/-- Firestore doc(id).set: overwrite the binding when the id is present,
append it otherwise. -/
def setDoc {α : Type} : List (DocId × α) → DocId → α → List (DocId × α)
  | [], id, d => [(id, d)]
  | p :: ps, id, d =>
    if p.1 == id then (id, d) :: ps else p :: setDoc ps id d

/-- Firestore collection.add: append the document under a fresh id. -/
def addDoc {α : Type} (coll : List (DocId × α)) (id : DocId) (d : α) :
    List (DocId × α) :=
  coll ++ [(id, d)]

/-- Firestore FieldValue.arrayUnion with a single element: append the
element only when it is not already in the array. -/
def arrayUnion (xs : List String) (x : String) : List String :=
  if x ∈ xs then xs else xs ++ [x]

/-- Fresh document ids generated by the store, one per nextId value. -/
def genId (n : Nat) : DocId := "gen" ++ toString n

/-- HTTP response as the handlers build it: status code, success flag,
message, and the field-level error list used by validation failures. -/
structure HttpResp where
  status : Nat
  success : Bool
  message : String
  errors : List String := []
deriving Repr, DecidableEq

-- =======================================================================
-- POST /churches  (src/api/index.js lines 353-374)
-- =======================================================================

/-- The newChurch object literal of the POST /churches handler. -/
def newChurch (name description uid : String) (now : Nat) : Church :=
  { name := name
    description := description
    createdBy := uid
    members := [uid]
    followerCount := 1
    createdAt := now }

/-- POST /churches handler: reject a missing name with 400, otherwise add
the newChurch document and answer 201 with the generated church id. -/
def createChurch (s : Store) (uid name description : String) :
    Store × HttpResp × Option DocId :=
  if name = "" then
    (s, { status := 400, success := false, message := "Church name is required." }, none)
  else
    let id := genId s.nextId
    let s' := { s with
      churches := addDoc s.churches id (newChurch name description uid s.now)
      nextId := s.nextId + 1
      now := s.now + 1 }
    (s', { status := 201, success := true, message := "Church created." }, some id)

-- =======================================================================
-- POST /churches/:churchId/follow  (src/api/index.js lines 380-413)
-- =======================================================================

/-- Outcome of the follow transaction body, mirroring its three paths:
the church document is absent (throw "Church not found."), the caller is
already a member (resolve without mutating), or the atomic update runs. -/
inductive JoinOutcome where
  | notFound
  | alreadyMember
  | joined
deriving Repr, DecidableEq

/-- Document-level effect of the follow transaction on the church it
touches: leave it alone when the caller is already a member, otherwise
arrayUnion the caller into members and increment followerCount by 1. -/
def followChurchDoc (c : Church) (uid : String) : Church :=
  if uid ∈ c.members then c
  else { c with
    members := arrayUnion c.members uid
    followerCount := c.followerCount + 1 }

/-- The runTransaction body of POST /churches/:churchId/follow: read the
church document; throw when absent; when the caller is already in members
resolve without mutating; otherwise atomically write the followChurchDoc
update (arrayUnion into members plus increment of followerCount). -/
def followTransaction (s : Store) (churchId uid : String) :
    Store × JoinOutcome :=
  match getDoc s.churches churchId with
  | none => (s, JoinOutcome.notFound)
  | some c =>
    if uid ∈ c.members then
      (s, JoinOutcome.alreadyMember)
    else
      ({ s with churches := setDoc s.churches churchId (followChurchDoc c uid) },
       JoinOutcome.joined)

/-- The userRef.update call that follows the transaction: arrayUnion the
church id into the user's churches array.  Firestore update fails when
the user document does not exist, which the handler surfaces as 500. -/
def updateUserChurches (s : Store) (uid churchId : String) :
    Option Store :=
  match getDoc s.users uid with
  | none => none
  | some u =>
    some { s with
      users := setDoc s.users uid { u with churches := arrayUnion u.churches churchId } }

/-- POST /churches/:churchId/follow handler: run the transaction; a thrown
"Church not found." reaches the catch block as 500; after the transaction
commits, update the acting user's churches array — when that second write
fails the catch block answers 500 even though the church mutation already
committed; otherwise answer 200. -/
def followChurch (s : Store) (churchId uid : String) : Store × HttpResp :=
  match followTransaction s churchId uid with
  | (s', JoinOutcome.notFound) =>
    (s', { status := 500, success := false, message := "Church not found." })
  | (s', _) =>
    match updateUserChurches s' uid churchId with
    | none =>
      (s', { status := 500, success := false, message := "update failed: no user document" })
    | some s'' =>
      (s'', { status := 200, success := true, message := "Successfully followed church." })

-- =======================================================================
-- Church invariant and reachability
-- =======================================================================

/-- The spec invariant on a church document: the follower counter equals
the cardinality of the member set, and members holds no duplicates. -/
def ChurchInv (c : Church) : Prop :=
  c.followerCount = c.members.length ∧ c.members.Nodup

instance (c : Church) : Decidable (ChurchInv c) := by
  unfold ChurchInv; infer_instance

/-- Church documents reachable through this API: created by POST /churches
and mutated only by follow operations. -/
inductive ReachableChurch : Church → Prop where
  | created (name description uid : String) (now : Nat) :
      ReachableChurch (newChurch name description uid now)
  | followed (c : Church) (uid : String) :
      ReachableChurch c → ReachableChurch (followChurchDoc c uid)

-- =======================================================================
-- POST /signup-profile  (src/api/index.js lines 58-73 and 108-160)
-- =======================================================================

/-- JavaScript String.prototype.trim whitespace set (the characters this
backend can realistically receive in JSON string fields). -/
def isJsSpace (c : Char) : Bool :=
  c = ' ' || c = '\t' || c = '\n' || c = '\r'

/-- Drop JS whitespace from both ends of a character list. -/
def trimChars (l : List Char) : List Char :=
  ((l.dropWhile isJsSpace).reverse.dropWhile isJsSpace).reverse

/-- JavaScript String.prototype.trim. -/
def jsTrim (s : String) : String := ⟨trimChars s.data⟩

/-- JavaScript String.prototype.includes with a single-character needle:
membership of the character in the string. -/
def includesChar (s : String) (c : Char) : Bool := s.data.contains c

/-- The request body of POST /signup-profile.  age is an integer (the code
applies parseInt, which is the identity on our integer model, and isNaN is
then false); photoUrl is optional and, when present, is a string, so the
typeof photoUrl check of the code never fails in the model. -/
structure ProfileData where
  userId : String
  name : String
  email : String
  phone : String
  age : Int
  country : String
  photoUrl : Option String
deriving Repr, DecidableEq

/-- The validateProfileData utility: collect field-level error messages.
JS falsiness of a string is equality with "" and of a number is equality
with 0; .includes of a single-character string is String.contains. -/
def validateProfileData (d : ProfileData) : List String :=
  (if d.userId = "" then ["userId (Firebase UID) is required."] else []) ++
  (if d.name = "" ∨ (jsTrim d.name).length < 2 then
    ["Name is required and must be at least 2 characters."] else []) ++
  (if d.email = "" ∨ ¬ (includesChar d.email '@' = true) then
    ["A valid Email is required."] else []) ++
  (if d.phone = "" ∨ (jsTrim d.phone).length < 10 then
    ["Phone Number must be at least 10 digits."] else []) ++
  (if d.age = 0 ∨ d.age < 18 then
    ["Age is required and must be 18 or older."] else []) ++
  (if d.country = "" ∨ (jsTrim d.country).length < 2 then
    ["Country is required."] else [])

/-- The user document written by POST /signup-profile.  The write passes
merge: true, but it supplies every field of the model document, so the
merge overwrites each of them — in particular following, followers and
churches are set to empty arrays. -/
def signupUserDoc (d : ProfileData) (now : Nat) : UserDoc :=
  { name := d.name
    email := d.email
    phone := d.phone
    age := d.age
    country := d.country
    photoUrl := d.photoUrl
    createdAt := now
    following := []
    followers := []
    churches := [] }

/-- POST /signup-profile handler: 400 with the error list when validation
fails, otherwise write the profile document and answer 201. -/
def signupProfile (s : Store) (d : ProfileData) : Store × HttpResp :=
  if 0 < (validateProfileData d).length then
    (s, { status := 400, success := false, message := "Validation failed.",
          errors := validateProfileData d })
  else
    ({ s with
        users := setDoc s.users d.userId (signupUserDoc d s.now)
        now := s.now + 1 },
     { status := 201, success := true,
       message := "Profile data saved successfully to Firestore." })

-- =======================================================================
-- POST /users/friend-request  (src/api/index.js lines 191-211)
-- =======================================================================

/-- POST /users/friend-request handler: 400 when recipientId is falsy,
otherwise set the pending request document at the composite key
senderId_recipientId (doc(...).set, so a repeat call overwrites). -/
def sendFriendRequest (s : Store) (senderId recipientId : String) :
    Store × HttpResp :=
  if recipientId = "" then
    (s, { status := 400, success := false, message := "Recipient ID is required." })
  else
    ({ s with
        friendRequests := setDoc s.friendRequests (senderId ++ "_" ++ recipientId)
          { fromId := senderId, toId := recipientId, status := "pending",
            createdAt := s.now }
        now := s.now + 1 },
     { status := 201, success := true, message := "Friend request sent." })

-- =======================================================================
-- GET /posts  (src/api/index.js lines 222-255)
-- =======================================================================

/-- Post summary returned by GET /posts; createdAtSeconds is the
createdAt timestamp converted to its seconds field for the client. -/
structure PostSummary where
  id : DocId
  authorId : String
  authorName : String
  authorPhotoUrl : Option String
  content : String
  postType : String
  reactions : Reactions
  commentCount : Nat
  createdAtSeconds : Nat
deriving Repr, DecidableEq

/-- Comparator realising orderBy createdAt desc: a sorts before b when
b's timestamp is at most a's. -/
def newestFirst (a b : DocId × Post) : Bool :=
  decide (b.2.createdAt ≤ a.2.createdAt)

/-- Firestore orderBy createdAt desc on the posts collection. -/
def postsByNewest (s : Store) : List (DocId × Post) :=
  s.posts.mergeSort newestFirst

/-- Mapping from a stored post document to the response item. -/
def toSummary (p : DocId × Post) : PostSummary :=
  { id := p.1
    authorId := p.2.authorId
    authorName := p.2.authorName
    authorPhotoUrl := p.2.authorPhotoUrl
    content := p.2.content
    postType := p.2.postType
    reactions := p.2.reactions
    commentCount := p.2.commentCount
    createdAtSeconds := p.2.createdAt }

/-- GET /posts handler: the posts collection ordered by createdAt
descending, limited to 20, mapped to response items. -/
def getPosts (s : Store) : List PostSummary :=
  ((postsByNewest s).take 20).map toSummary

-- =======================================================================
-- POST /churches/:churchId/events  (src/api/index.js lines 419-440)
-- =======================================================================

/-- POST /churches/:churchId/events handler: 400 when title, details or
eventDate is falsy, otherwise add the event document to the events
subcollection of churchId — without ever reading the church document. -/
def createChurchEvent (s : Store) (churchId title details eventDate uid : String) :
    Store × HttpResp :=
  if title = "" ∨ details = "" ∨ eventDate = "" then
    (s, { status := 400, success := false,
          message := "Title, details, and date are required." })
  else
    ({ s with
        events := s.events ++
          [(churchId, genId s.nextId,
            { title := title, details := details, eventDate := eventDate,
              postedBy := uid, createdAt := s.now })]
        nextId := s.nextId + 1
        now := s.now + 1 },
     { status := 201, success := true, message := "Event created." })

-- =======================================================================
-- Helper lemmas about the store primitives
-- =======================================================================

theorem getDoc_setDoc_self {α : Type} (coll : List (DocId × α)) (id : DocId) (d : α) :
    getDoc (setDoc coll id d) id = some d := by
  induction coll with
  | nil => simp [setDoc, getDoc]
  | cons p ps ih =>
    by_cases h : p.1 == id
    · simp [setDoc, h, getDoc]
    · simp only [setDoc, h, if_false, Bool.false_eq_true]
      simpa [getDoc, List.find?, h] using ih

theorem length_setDoc_of_isSome {α : Type} (coll : List (DocId × α)) (id : DocId)
    (d : α) (h : (getDoc coll id).isSome) :
    (setDoc coll id d).length = coll.length := by
  induction coll with
  | nil => simp [getDoc] at h
  | cons p ps ih =>
    by_cases hp : p.1 == id
    · simp [setDoc, hp]
    · simp only [setDoc, hp, if_false, Bool.false_eq_true, List.length_cons]
      have h' : (getDoc ps id).isSome := by
        simpa [getDoc, List.find?, hp] using h
      simp [ih h']

theorem getDoc_addDoc {α : Type} (coll : List (DocId × α)) (id : DocId) (d : α)
    (h : getDoc coll id = none) :
    getDoc (addDoc coll id d) id = some d := by
  have hf : coll.find? (fun p => p.1 == id) = none := by
    cases hf : coll.find? (fun p => p.1 == id) with
    | none => rfl
    | some p => simp [getDoc, hf] at h
  simp [getDoc, addDoc, List.find?_append, hf]

theorem arrayUnion_of_not_mem (xs : List String) (x : String) (h : x ∉ xs) :
    arrayUnion xs x = xs ++ [x] := by
  simp [arrayUnion, h]

theorem mem_arrayUnion_self (xs : List String) (x : String) :
    x ∈ arrayUnion xs x := by
  by_cases h : x ∈ xs
  · simp [arrayUnion, h]
  · simp [arrayUnion, h]

theorem trimChars_length_le (l : List Char) : (trimChars l).length ≤ l.length := by
  unfold trimChars
  calc (((l.dropWhile isJsSpace).reverse.dropWhile isJsSpace).reverse).length
      = ((l.dropWhile isJsSpace).reverse.dropWhile isJsSpace).length := by
        simp
    _ ≤ (l.dropWhile isJsSpace).reverse.length :=
        (List.dropWhile_sublist _).length_le
    _ = (l.dropWhile isJsSpace).length := by simp
    _ ≤ l.length := (List.dropWhile_sublist _).length_le

theorem jsTrim_length_le (s : String) : (jsTrim s).length ≤ s.length :=
  trimChars_length_le s.data

theorem updateUserChurches_churches (s : Store) (uid churchId : String) (s' : Store)
    (h : updateUserChurches s uid churchId = some s') :
    s'.churches = s.churches := by
  unfold updateUserChurches at h
  cases hg : getDoc s.users uid with
  | none => rw [hg] at h; cases h
  | some u => rw [hg] at h; cases h; rfl

theorem followChurch_store_churches (s : Store) (churchId uid : String) :
    (followChurch s churchId uid).1.churches =
      (followTransaction s churchId uid).1.churches := by
  unfold followChurch
  rcases ht : followTransaction s churchId uid with ⟨s1, out⟩
  cases out with
  | notFound => rfl
  | alreadyMember =>
    cases hu : updateUserChurches s1 uid churchId with
    | none => simp [hu]
    | some s2 => simp [hu, updateUserChurches_churches s1 uid churchId s2 hu]
  | joined =>
    cases hu : updateUserChurches s1 uid churchId with
    | none => simp [hu]
    | some s2 => simp [hu, updateUserChurches_churches s1 uid churchId s2 hu]

-- =======================================================================
-- Sample data used by witnesses
-- =======================================================================

/-- Sample church document with a single member. -/
def churchA : Church :=
  { name := "Grace", description := "", createdBy := "alice",
    members := ["alice"], followerCount := 1, createdAt := 0 }

/-- Sample store holding one church and no users. -/
def storeA : Store :=
  { users := [], churches := [("c1", churchA)], posts := [],
    friendRequests := [], events := [], nextId := 0, now := 0 }

-- =======================================================================
-- Claim theorems
-- =======================================================================

/-- C1: every church document reachable through this API — created by
POST /churches and mutated only by follow operations — satisfies
followerCount = |members| with duplicate-free members: creation
establishes the invariant and every follow operation preserves it. -/
theorem reachable_church_invariant (c : Church) (h : ReachableChurch c) :
    ChurchInv c := by
  induction h with
  | created name description uid now =>
    exact ⟨rfl, by simp [newChurch]⟩
  | followed c uid hr ih =>
    by_cases hm : uid ∈ c.members
    · simpa [followChurchDoc, hm] using ih
    · obtain ⟨h1, h2⟩ := ih
      refine ⟨?_, ?_⟩
      · simp [followChurchDoc, hm, arrayUnion_of_not_mem _ _ hm, h1]
      · simp [followChurchDoc, hm, arrayUnion_of_not_mem _ _ hm,
          List.nodup_append, h2, List.Disjoint]
        intro a ha hax
        exact hm (hax ▸ ha)

/-- Witness for C1 at a concrete reachable church: a creation followed by
one follow operation. -/
theorem reachable_church_invariant_witness :
    ChurchInv (followChurchDoc (newChurch "Grace" "" "alice" 0) "bob") :=
  reachable_church_invariant _
    (ReachableChurch.followed _ "bob"
      (ReachableChurch.created "Grace" "" "alice" 0))

/-- C2: the join operation is idempotent per member: when the caller is
already in the member set the transaction yields the AlreadyMember outcome
and performs no mutation, so a fresh member joining twice sequentially
increases followerCount by exactly 1, not 2. -/
theorem follow_idempotent (s : Store) (churchId uid : String) (c : Church)
    (hc : getDoc s.churches churchId = some c) :
    (uid ∈ c.members →
      followTransaction s churchId uid = (s, JoinOutcome.alreadyMember)) ∧
    (uid ∉ c.members →
      ∃ c2,
        getDoc ((followChurch ((followChurch s churchId uid).1) churchId uid).1).churches
            churchId = some c2 ∧
        c2.followerCount = c.followerCount + 1) := by
  constructor
  · intro hm
    unfold followTransaction
    rw [hc]
    simp [hm]
  · intro hm
    have h1 : (followChurch s churchId uid).1.churches
        = setDoc s.churches churchId (followChurchDoc c uid) := by
      rw [followChurch_store_churches]
      unfold followTransaction
      rw [hc]
      simp [hm]
    have hget1 : getDoc (followChurch s churchId uid).1.churches churchId
        = some (followChurchDoc c uid) := by
      rw [h1]
      exact getDoc_setDoc_self _ _ _
    have hmem : uid ∈ (followChurchDoc c uid).members := by
      simp only [followChurchDoc, hm, if_false]
      exact mem_arrayUnion_self _ _
    have h2 : ((followChurch ((followChurch s churchId uid).1) churchId uid).1).churches
        = (followChurch s churchId uid).1.churches := by
      rw [followChurch_store_churches]
      unfold followTransaction
      rw [hget1]
      simp [hmem]
    refine ⟨followChurchDoc c uid, ?_, ?_⟩
    · rw [h2, hget1]
    · simp [followChurchDoc, hm]

/-- Witness for C2: in the sample store, a repeated join by the existing
member alice is the AlreadyMember no-op, and the fresh member bob joining
twice leaves followerCount at exactly 2. -/
theorem follow_idempotent_witness :
    (followTransaction storeA "c1" "alice" = (storeA, JoinOutcome.alreadyMember)) ∧
    (∃ c2,
      getDoc ((followChurch ((followChurch storeA "c1" "bob").1) "c1" "bob").1).churches
          "c1" = some c2 ∧
      c2.followerCount = churchA.followerCount + 1) :=
  ⟨(follow_idempotent storeA "c1" "alice" churchA (by decide)).1 (by decide),
   (follow_idempotent storeA "c1" "bob" churchA (by decide)).2 (by decide)⟩

/-- C3: joining a community id that does not resolve fails with the
"Church not found." error and returns the store unchanged: no partial
mutation is committed and no document is created. -/
theorem follow_notFound_no_mutation (s : Store) (churchId uid : String)
    (h : getDoc s.churches churchId = none) :
    followChurch s churchId uid =
      (s, { status := 500, success := false, message := "Church not found." }) := by
  unfold followChurch followTransaction
  rw [h]

/-- Witness for C3 at a concrete store and an unresolvable id. -/
theorem follow_notFound_witness :
    followChurch storeA "nope" "bob" =
      (storeA, { status := 500, success := false, message := "Church not found." }) :=
  follow_notFound_no_mutation storeA "nope" "bob" (by decide)

/-- C4: a successful POST /churches by user uid with a non-empty name
creates a community document whose members array is exactly the creator
and whose followerCount is 1. -/
theorem createChurch_creator_sole_member (s : Store) (uid name description : String)
    (hname : name ≠ "") (hfresh : getDoc s.churches (genId s.nextId) = none) :
    (createChurch s uid name description).2.1.status = 201 ∧
    (createChurch s uid name description).2.2 = some (genId s.nextId) ∧
    getDoc (createChurch s uid name description).1.churches (genId s.nextId) =
      some (newChurch name description uid s.now) ∧
    (newChurch name description uid s.now).members = [uid] ∧
    (newChurch name description uid s.now).followerCount = 1 := by
  refine ⟨?_, ?_, ?_, rfl, rfl⟩
  · simp [createChurch, hname]
  · simp [createChurch, hname]
  · simp only [createChurch, if_neg hname]
    exact getDoc_addDoc _ _ _ hfresh

/-- Witness for C4 at the sample store (the generated id gen0 is fresh). -/
theorem createChurch_creator_sole_member_witness :
    (createChurch storeA "alice" "Grace" "").2.1.status = 201 ∧
    (createChurch storeA "alice" "Grace" "").2.2 = some (genId storeA.nextId) ∧
    getDoc (createChurch storeA "alice" "Grace" "").1.churches (genId storeA.nextId) =
      some (newChurch "Grace" "" "alice" storeA.now) ∧
    (newChurch "Grace" "" "alice" storeA.now).members = ["alice"] ∧
    (newChurch "Grace" "" "alice" storeA.now).followerCount = 1 :=
  createChurch_creator_sole_member storeA "alice" "Grace" "" (by decide) (by decide)

/-- C5: the update of the acting user's churches array happens after and
outside the membership transaction, so when the church exists, the caller
is a fresh member and the user document is absent, the endpoint answers
500 although the church already records the join: the member was added and
followerCount was incremented. -/
theorem follow_commit_despite_error (s : Store) (churchId uid : String) (c : Church)
    (hc : getDoc s.churches churchId = some c) (hm : uid ∉ c.members)
    (hu : getDoc s.users uid = none) :
    (followChurch s churchId uid).2.status = 500 ∧
    (followChurch s churchId uid).2.success = false ∧
    getDoc (followChurch s churchId uid).1.churches churchId =
      some (followChurchDoc c uid) ∧
    uid ∈ (followChurchDoc c uid).members ∧
    (followChurchDoc c uid).followerCount = c.followerCount + 1 := by
  have ht : followTransaction s churchId uid =
      ({ s with churches := setDoc s.churches churchId (followChurchDoc c uid) },
       JoinOutcome.joined) := by
    unfold followTransaction
    rw [hc]
    simp [hm]
  have hupd : updateUserChurches
      { s with churches := setDoc s.churches churchId (followChurchDoc c uid) }
      uid churchId = none := by
    unfold updateUserChurches
    rw [hu]
  have hmem : uid ∈ (followChurchDoc c uid).members := by
    simp only [followChurchDoc, hm, if_false]
    exact mem_arrayUnion_self _ _
  refine ⟨?_, ?_, ?_, hmem, ?_⟩
  · simp [followChurch, ht, hupd]
  · simp [followChurch, ht, hupd]
  · simp [followChurch, ht, hupd, getDoc_setDoc_self]
  · simp [followChurchDoc, hm]

/-- Witness for C5: bob follows the sample church while no user document
for bob exists; the response is an error but the join is committed. -/
theorem follow_commit_despite_error_witness :
    (followChurch storeA "c1" "bob").2.status = 500 ∧
    (followChurch storeA "c1" "bob").2.success = false ∧
    getDoc (followChurch storeA "c1" "bob").1.churches "c1" =
      some (followChurchDoc churchA "bob") ∧
    "bob" ∈ (followChurchDoc churchA "bob").members ∧
    (followChurchDoc churchA "bob").followerCount = churchA.followerCount + 1 :=
  follow_commit_despite_error storeA "c1" "bob" churchA (by decide) (by decide) (by decide)

-- =======================================================================
-- More sample data for witnesses
-- =======================================================================

/-- The minimally valid POST /signup-profile payload of the spec. -/
def minimalProfile : ProfileData :=
  { userId := "u1", name := "Jo Ann", email := "a@b.com", phone := "1234567890",
    age := 20, country := "US", photoUrl := none }

/-- Existing profile document with non-empty social arrays. -/
def userB : UserDoc :=
  { name := "Old", email := "o@x.com", phone := "1234567890", age := 30,
    country := "US", photoUrl := none, createdAt := 0,
    following := ["f1"], followers := ["f2"], churches := ["c1"] }

/-- Store holding an existing profile for u1 and no churches. -/
def storeB : Store :=
  { users := [("u1", userB)], churches := [], posts := [],
    friendRequests := [], events := [], nextId := 0, now := 5 }

/-- Two sample posts with distinct timestamps. -/
def postP1 : Post :=
  { authorId := "a", authorName := "A", authorPhotoUrl := none,
    content := "x", postType := "post", reactions := ⟨0, 0, 0⟩,
    commentCount := 0, createdAt := 5 }

/-- Second sample post, newer than postP1. -/
def postP2 : Post :=
  { authorId := "b", authorName := "B", authorPhotoUrl := none,
    content := "y", postType := "post", reactions := ⟨0, 0, 0⟩,
    commentCount := 0, createdAt := 9 }

/-- Store holding the two sample posts. -/
def storeC : Store :=
  { users := [], churches := [], posts := [("p1", postP1), ("p2", postP2)],
    friendRequests := [], events := [], nextId := 0, now := 0 }

-- =======================================================================
-- Claim theorems, continued
-- =======================================================================

theorem signup_reject_of_errors (s : Store) (d : ProfileData)
    (h : validateProfileData d ≠ []) :
    (signupProfile s d).2.status = 400 ∧ (signupProfile s d).2.errors ≠ [] := by
  have hl : 0 < (validateProfileData d).length := List.length_pos.mpr h
  constructor <;> simp [signupProfile, hl, h]

/-- C6: POST /signup-profile answers 400 with field-level error messages
for every payload whose age parses below 18, whose phone has fewer than
10 characters or whose email contains no at-sign, and answers 201 on the
minimally valid payload. -/
theorem signupProfile_validation (s : Store) (d : ProfileData) :
    (d.age < 18 →
      (signupProfile s d).2.status = 400 ∧ (signupProfile s d).2.errors ≠ []) ∧
    (d.phone.length < 10 →
      (signupProfile s d).2.status = 400 ∧ (signupProfile s d).2.errors ≠ []) ∧
    (¬ includesChar d.email '@' = true →
      (signupProfile s d).2.status = 400 ∧ (signupProfile s d).2.errors ≠ []) ∧
    (signupProfile s minimalProfile).2.status = 201 := by
  refine ⟨?_, ?_, ?_, ?_⟩
  · intro hage
    refine signup_reject_of_errors s d (List.ne_nil_of_mem (a := "Age is required and must be 18 or older.") ?_)
    unfold validateProfileData
    have hcond : d.age = 0 ∨ d.age < 18 := Or.inr hage
    simp [hcond]
  · intro hphone
    refine signup_reject_of_errors s d (List.ne_nil_of_mem (a := "Phone Number must be at least 10 digits.") ?_)
    unfold validateProfileData
    have hcond : d.phone = "" ∨ (jsTrim d.phone).length < 10 :=
      Or.inr (lt_of_le_of_lt (jsTrim_length_le d.phone) hphone)
    simp [hcond]
  · intro hemail
    refine signup_reject_of_errors s d (List.ne_nil_of_mem (a := "A valid Email is required.") ?_)
    unfold validateProfileData
    have hcond : d.email = "" ∨ includesChar d.email '@' = false :=
      Or.inr (by simpa using hemail)
    simp [hcond]
  · have hv : validateProfileData minimalProfile = [] := by decide
    simp [signupProfile, hv]

/-- Witness for C6: underage, short-phone and at-sign-free payloads are
rejected, the minimal payload is accepted. -/
theorem signupProfile_validation_witness :
    ((signupProfile storeB { minimalProfile with age := 17 }).2.status = 400 ∧
      (signupProfile storeB { minimalProfile with age := 17 }).2.errors ≠ []) ∧
    ((signupProfile storeB { minimalProfile with phone := "123" }).2.status = 400 ∧
      (signupProfile storeB { minimalProfile with phone := "123" }).2.errors ≠ []) ∧
    ((signupProfile storeB { minimalProfile with email := "nope" }).2.status = 400 ∧
      (signupProfile storeB { minimalProfile with email := "nope" }).2.errors ≠ []) ∧
    (signupProfile storeB minimalProfile).2.status = 201 :=
  ⟨(signupProfile_validation storeB { minimalProfile with age := 17 }).1 (by decide),
   (signupProfile_validation storeB { minimalProfile with phone := "123" }).2.1 (by decide),
   (signupProfile_validation storeB { minimalProfile with email := "nope" }).2.2.1 (by decide),
   (signupProfile_validation storeB minimalProfile).2.2.2⟩

theorem sendFriendRequest_state (s : Store) (senderId recipientId : String)
    (h : recipientId ≠ "") :
    (sendFriendRequest s senderId recipientId).1.friendRequests =
      setDoc s.friendRequests (senderId ++ "_" ++ recipientId)
        { fromId := senderId, toId := recipientId, status := "pending",
          createdAt := s.now } ∧
    (sendFriendRequest s senderId recipientId).1.now = s.now + 1 := by
  constructor <;> simp [sendFriendRequest, h]

/-- C7: POST /users/friend-request writes the request document at the
deterministic composite key senderId_recipientId, and a second identical
call overwrites that document instead of adding another one. -/
theorem friendRequest_composite_key (s : Store) (senderId recipientId : String)
    (h : recipientId ≠ "") :
    getDoc (sendFriendRequest s senderId recipientId).1.friendRequests
        (senderId ++ "_" ++ recipientId) =
      some { fromId := senderId, toId := recipientId, status := "pending",
             createdAt := s.now } ∧
    getDoc ((sendFriendRequest (sendFriendRequest s senderId recipientId).1
          senderId recipientId).1).friendRequests (senderId ++ "_" ++ recipientId) =
      some { fromId := senderId, toId := recipientId, status := "pending",
             createdAt := (sendFriendRequest s senderId recipientId).1.now } ∧
    ((sendFriendRequest (sendFriendRequest s senderId recipientId).1
          senderId recipientId).1).friendRequests.length =
      (sendFriendRequest s senderId recipientId).1.friendRequests.length := by
  obtain ⟨ha, _⟩ := sendFriendRequest_state s senderId recipientId h
  obtain ⟨hb, _⟩ :=
    sendFriendRequest_state (sendFriendRequest s senderId recipientId).1 senderId recipientId h
  refine ⟨?_, ?_, ?_⟩
  · rw [ha]
    exact getDoc_setDoc_self _ _ _
  · rw [hb]
    exact getDoc_setDoc_self _ _ _
  · rw [hb]
    apply length_setDoc_of_isSome
    rw [ha, getDoc_setDoc_self]
    rfl

/-- Witness for C7: sender A and recipient B in the empty-request store. -/
theorem friendRequest_composite_key_witness :
    getDoc (sendFriendRequest storeA "A" "B").1.friendRequests ("A" ++ "_" ++ "B") =
      some { fromId := "A", toId := "B", status := "pending", createdAt := storeA.now } ∧
    getDoc ((sendFriendRequest (sendFriendRequest storeA "A" "B").1 "A" "B").1).friendRequests
        ("A" ++ "_" ++ "B") =
      some { fromId := "A", toId := "B", status := "pending",
             createdAt := (sendFriendRequest storeA "A" "B").1.now } ∧
    ((sendFriendRequest (sendFriendRequest storeA "A" "B").1 "A" "B").1).friendRequests.length =
      (sendFriendRequest storeA "A" "B").1.friendRequests.length :=
  friendRequest_composite_key storeA "A" "B" (by decide)

/-- C9: every successful POST /signup-profile resets the stored profile's
following, followers and churches fields to empty arrays, even when a
document for that userId already exists with non-empty values there: the
merge write supplies these fields and so overwrites them. -/
theorem signup_resets_social_arrays (s : Store) (d : ProfileData) (u : UserDoc)
    (hv : validateProfileData d = []) (_hu : getDoc s.users d.userId = some u) :
    (signupProfile s d).2.status = 201 ∧
    getDoc (signupProfile s d).1.users d.userId = some (signupUserDoc d s.now) ∧
    (signupUserDoc d s.now).following = [] ∧
    (signupUserDoc d s.now).followers = [] ∧
    (signupUserDoc d s.now).churches = [] := by
  have hl : ¬ 0 < (validateProfileData d).length := by simp [hv]
  refine ⟨?_, ?_, rfl, rfl, rfl⟩
  · simp [signupProfile, hl]
  · simp only [signupProfile, if_neg hl]
    exact getDoc_setDoc_self _ _ _

/-- Witness for C9: u1 already has non-empty social arrays in storeB and
the minimal payload resets them. -/
theorem signup_resets_social_arrays_witness :
    (signupProfile storeB minimalProfile).2.status = 201 ∧
    getDoc (signupProfile storeB minimalProfile).1.users minimalProfile.userId =
      some (signupUserDoc minimalProfile storeB.now) ∧
    (signupUserDoc minimalProfile storeB.now).following = [] ∧
    (signupUserDoc minimalProfile storeB.now).followers = [] ∧
    (signupUserDoc minimalProfile storeB.now).churches = [] :=
  signup_resets_social_arrays storeB minimalProfile userB (by decide) (by decide)

/-- C10: POST /churches/:churchId/events never consults the churches
collection: the status is always 201 or 400 (never a NotFound), and with
title, details and eventDate present the event document is created under
churchId even for a churchId that resolves to no church. -/
theorem createEvent_no_existence_check (s : Store)
    (churchId title details eventDate uid : String) :
    ((createChurchEvent s churchId title details eventDate uid).2.status = 201 ∨
     (createChurchEvent s churchId title details eventDate uid).2.status = 400) ∧
    (title ≠ "" → details ≠ "" → eventDate ≠ "" →
      (createChurchEvent s churchId title details eventDate uid).2.status = 201 ∧
      (createChurchEvent s churchId title details eventDate uid).1.events =
        s.events ++ [(churchId, genId s.nextId,
          { title := title, details := details, eventDate := eventDate,
            postedBy := uid, createdAt := s.now })]) := by
  by_cases hcond : title = "" ∨ details = "" ∨ eventDate = ""
  · refine ⟨Or.inr ?_, ?_⟩
    · simp [createChurchEvent, hcond]
    · intro h1 h2 h3
      rcases hcond with h | h | h
      · exact absurd h h1
      · exact absurd h h2
      · exact absurd h h3
  · refine ⟨Or.inl ?_, fun _ _ _ => ⟨?_, ?_⟩⟩ <;> simp [createChurchEvent, hcond]

/-- Witness for C10: an event is created for the id ghost although storeB
holds no church at all. -/
theorem createEvent_no_existence_check_witness :
    getDoc storeB.churches "ghost" = none ∧
    ((createChurchEvent storeB "ghost" "T" "D" "2030-01-01" "u").2.status = 201 ∧
      (createChurchEvent storeB "ghost" "T" "D" "2030-01-01" "u").1.events =
        storeB.events ++ [("ghost", genId storeB.nextId,
          { title := "T", details := "D", eventDate := "2030-01-01",
            postedBy := "u", createdAt := storeB.now })]) :=
  ⟨by decide,
   (createEvent_no_existence_check storeB "ghost" "T" "D" "2030-01-01" "u").2
     (by decide) (by decide) (by decide)⟩

/-- C8: a successful GET /posts answers with at most 20 posts, ordered by
creation time descending, and they are the latest: every stored post is
either among the selected ones or no newer than each selected one. -/
theorem getPosts_latest_twenty (s : Store) :
    (getPosts s).length ≤ 20 ∧
    (getPosts s).Pairwise (fun p q => q.createdAtSeconds ≤ p.createdAtSeconds) ∧
    (∀ q ∈ s.posts, q ∈ (postsByNewest s).take 20 ∨
      ∀ p ∈ (postsByNewest s).take 20, q.2.createdAt ≤ p.2.createdAt) := by
  have htrans : ∀ a b c, newestFirst a b = true → newestFirst b c = true →
      newestFirst a c = true := by
    intro a b c h1 h2
    simp only [newestFirst, decide_eq_true_eq] at h1 h2 ⊢
    exact le_trans h2 h1
  have htot : ∀ a b, (newestFirst a b || newestFirst b a) = true := by
    intro a b
    simp only [newestFirst, Bool.or_eq_true, decide_eq_true_eq]
    exact Nat.le_total _ _
  have hsorted : List.Pairwise (fun a b => newestFirst a b = true) (postsByNewest s) :=
    List.sorted_mergeSort htrans htot s.posts
  refine ⟨?_, ?_, ?_⟩
  · simp only [getPosts, List.length_map]
    exact List.length_take_le _ _
  · have htake : List.Pairwise (fun a b => newestFirst a b = true)
        ((postsByNewest s).take 20) :=
      List.Pairwise.sublist (List.take_sublist 20 _) hsorted
    refine List.Pairwise.map toSummary ?_ htake
    intro a b hab
    simpa [toSummary, newestFirst] using hab
  · intro q hq
    have hqm : q ∈ postsByNewest s :=
      ((List.mergeSort_perm s.posts newestFirst).mem_iff).mpr hq
    have hsplit : List.Pairwise (fun a b => newestFirst a b = true)
        ((postsByNewest s).take 20 ++ (postsByNewest s).drop 20) := by
      rw [List.take_append_drop]
      exact hsorted
    have hqm2 : q ∈ (postsByNewest s).take 20 ++ (postsByNewest s).drop 20 := by
      rw [List.take_append_drop]
      exact hqm
    rcases List.mem_append.mp hqm2 with h | h
    · exact Or.inl h
    · refine Or.inr fun p hp => ?_
      have hc := (List.pairwise_append.mp hsplit).2.2 p hp q h
      simpa [newestFirst] using hc

/-- Witness for C8 at the two-post store, placing the older post p1. -/
theorem getPosts_latest_twenty_witness :
    (getPosts storeC).length ≤ 20 ∧
    (getPosts storeC).Pairwise (fun p q => q.createdAtSeconds ≤ p.createdAtSeconds) ∧
    (("p1", postP1) ∈ (postsByNewest storeC).take 20 ∨
      ∀ p ∈ (postsByNewest storeC).take 20, ("p1", postP1).2.createdAt ≤ p.2.createdAt) :=
  ⟨(getPosts_latest_twenty storeC).1,
   (getPosts_latest_twenty storeC).2.1,
   (getPosts_latest_twenty storeC).2.2 ("p1", postP1) (by decide)⟩

end LonyiChat
